import Mathlib

/-!
Shallow embedding of the PizzaGo backend: the Express route handlers in
`app.js` (catalog, cart, orders, auth), the Redis session store, and the
Prisma relational store described by `prisma/schema.prisma`.

Modelling conventions, each matched against the source:
* Monetary amounts are integer cents (`Int`).  The relational columns are
  `Decimal(6,2)`, i.e. exact multiples of one cent, and the handlers only
  ever add, subtract, and multiply a price by an integer quantity, so the
  cent scaling represents the JS number arithmetic of every run considered
  here exactly.
* Ids are `Int` (the handlers run every id through `parseInt`).  Request
  fields that `parseInt` to `NaN` are rejected with 400 before any of the
  logic modelled below runs; the embedded handlers therefore take already
  parsed integers, and the JS truthiness checks (`!pizzaId`, `!quantity`)
  become explicit `= 0` tests.
* The Redis session store is an association list from key (the session id)
  to the stored `Session`; `redisClient.set` is update-or-append,
  `redisClient.get` is first-match lookup.  TTLs are not modelled; a key
  that has expired is simply absent from the list.
* The relational store is carried explicitly: a list of pizzas (the
  catalog), a list of orders, lists of users and email-verification rows.
* `crypto.randomBytes` / `getSecureToken` outputs are passed in as
  explicit arguments (`freshId`, `freshToken`).
-/

set_option autoImplicit false

namespace PizzaGo

/-- Monetary amount in integer cents (`Decimal(6,2)` column, JS number). -/
abbrev Money := Int

/-- A row of the `Pizza` table: `id`, `name`, `price`. -/
structure Pizza where
  id : Int
  name : String
  price : Money
deriving Repr, DecidableEq

/-- The live catalog (the whole `Pizza` table), read-only for the handlers. -/
abbrev Catalog := List Pizza

/-- `prisma.pizza.findUnique({ where: { id: pid } })`. -/
def findPizza (catalog : Catalog) (pid : Int) : Option Pizza :=
  catalog.find? (fun p => p.id == pid)

/-- One entry of `session.cart.items`: `{pizzaId, quantity}`. -/
structure CartItem where
  pizzaId : Int
  quantity : Int
deriving Repr, DecidableEq

/-- `session.cart`: the item list plus the denormalized running `total`. -/
structure Cart where
  items : List CartItem
  total : Money
deriving Repr, DecidableEq

/-- The cart a fresh session starts with: `{items: [], total: 0}`. -/
def emptyCart : Cart := ⟨[], 0⟩

/-- A session record as stored in Redis (timestamps omitted: no handler
reads them back). -/
structure Session where
  id : String
  cart : Cart
  userId : Option Int
deriving Repr, DecidableEq

/-- The Redis keyspace that holds sessions, keyed by session id (the
`pizzago_session:` key namespace). -/
abbrev SessionStore := List (String × Session)

/-- `redisClient.get`: first binding of the key, if any. -/
def kvGet (store : SessionStore) (k : String) : Option Session :=
  (store.find? (fun e => e.1 == k)).map Prod.snd

/-- `redisClient.set`: overwrite the binding of `k`, or append a new one. -/
def kvSet (store : SessionStore) (k : String) (v : Session) : SessionStore :=
  if store.any (fun e => e.1 == k) then
    store.map (fun e => if e.1 == k then (k, v) else e)
  else
    store ++ [(k, v)]

/-- `constructSessionData(sessionId)`: fresh session with empty cart and
`userId = null`. -/
def constructSessionData (sessionId : String) : Session :=
  ⟨sessionId, emptyCart, none⟩

/-- `createSession(sessionId)`: build the fresh session data and persist it
under the given id. -/
def createSession (store : SessionStore) (sessionId : String) :
    Session × SessionStore :=
  let s := constructSessionData sessionId
  (s, kvSet store sessionId s)

/-- `getOrCreateSession(sessionId)`: falsy id or no live record means a
fresh session is created; note the fresh session is stored under the id
that was passed in. -/
def getOrCreateSession (store : SessionStore) (sessionId : String) :
    Session × SessionStore :=
  if sessionId = "" then createSession store sessionId
  else
    match kvGet store sessionId with
    | some s => (s, store)
    | none => createSession store sessionId

/-- `getSessionForRequest(req, res)`.  `cookie` is the value of the
`session` cookie (`none` = header absent; `some ""` = empty value, falsy in
JS).  `freshId` stands for the `generateSessionId()` output.  The returned
`Bool` records whether `res.cookie(..)` was invoked. -/
def getSessionForRequest (store : SessionStore) (cookie : Option String)
    (freshId : String) : Session × Bool × SessionStore :=
  let falsy := match cookie with
    | none => true
    | some c => c = ""
  let sid := if falsy then freshId else cookie.getD ""
  let (s, store') := getOrCreateSession store sid
  (s, falsy, store')

/-- Responses of the cart route handlers. -/
inductive CartResp where
  /-- 400: missing body fields or a field that is falsy after `parseInt`. -/
  | badRequest
  /-- 404 "Pizza not found": the id does not resolve in the catalog. -/
  | pizzaNotFound
  /-- 404 "Pizza not found in cart". -/
  | notFoundInCart
  /-- 200 with `transformCartInfo(cart)` (the identity). -/
  | ok (cart : Cart)
deriving Repr, DecidableEq

/-- The in-place `existingItem.quantity += quantity` after
`cart.items.find(..)`: adds `q` to the quantity of the first entry whose
`pizzaId` matches. -/
def addQtyToFirst : List CartItem → Int → Int → List CartItem
  | [], _, _ => []
  | it :: rest, pid, q =>
    if it.pizzaId == pid then { it with quantity := it.quantity + q } :: rest
    else it :: addQtyToFirst rest pid q

/-- `app.post("/api/v1/cart")`: reject falsy fields, resolve the pizza,
then add to an existing entry or push a new one, and bump `total` by
`pizza.price * quantity`. -/
def postCart (catalog : Catalog) (cart : Cart) (pizzaId quantity : Int) :
    CartResp :=
  if pizzaId = 0 ∨ quantity = 0 then .badRequest
  else
    match findPizza catalog pizzaId with
    | none => .pizzaNotFound
    | some pizza =>
      if cart.items.any (fun it => it.pizzaId == pizzaId) then
        .ok ⟨addQtyToFirst cart.items pizzaId quantity,
             cart.total + pizza.price * quantity⟩
      else
        .ok ⟨cart.items ++ [⟨pizzaId, quantity⟩],
             cart.total + pizza.price * quantity⟩

/-- The `findIndex` plus `items[idx]` plus `splice(idx, 1)` combination of
the per-item delete handler: the first entry whose `pizzaId` matches,
together with the list with that entry spliced out; `none` when
`findIndex` returns `-1`. -/
def removeFirstItem (pid : Int) : List CartItem → Option (CartItem × List CartItem)
  | [] => none
  | it :: rest =>
    if it.pizzaId == pid then some (it, rest)
    else (removeFirstItem pid rest).map (fun r => (r.1, it :: r.2))

/-- `app.delete("/api/v1/cart/:pizzaId")`: 404 if the id is not in the cart,
then 404 if it does not resolve in the catalog, else splice the entry out
and subtract `pizza.price * entry.quantity` from `total`. -/
def deleteCartItem (catalog : Catalog) (cart : Cart) (pizzaId : Int) :
    CartResp :=
  match removeFirstItem pizzaId cart.items with
  | none => .notFoundInCart
  | some (entry, rest) =>
    match findPizza catalog pizzaId with
    | none => .pizzaNotFound
    | some pizza =>
      .ok ⟨rest, cart.total - pizza.price * entry.quantity⟩

/-- `app.delete("/api/v1/cart")`: unconditional reset to the empty cart. -/
def clearCart (_cart : Cart) : Cart := ⟨[], 0⟩

/-- The `DELETE /api/v1/cart/:pizzaId` handler at store level: on success
the mutated session is written back to Redis; on any error response the
store is left untouched. -/
def deleteCartRoute (catalog : Catalog) (store : SessionStore) (s : Session)
    (pizzaId : Int) : CartResp × SessionStore :=
  match deleteCartItem catalog s.cart pizzaId with
  | .ok c' => (.ok c', kvSet store s.id { s with cart := c' })
  | r => (r, store)

/-- The `status` enum of the `Order` table. -/
inductive OrderStatus where
  | pending
  | delivered
deriving Repr, DecidableEq

/-- A row of the `order_item` table: prices as captured by the commit. -/
structure OrderItem where
  pizzaId : Int
  quantity : Int
  unitPrice : Money
  totalPrice : Money
deriving Repr, DecidableEq

/-- A row of the `Order` table together with its `order_item` rows. -/
structure Order where
  id : Int
  sessionId : String
  userId : Option Int
  items : List OrderItem
  total : Money
  status : OrderStatus
deriving Repr, DecidableEq

/-- The relational store as far as order commits touch it: existing orders
plus the autoincrement counter that numbers the next one. -/
structure Db where
  orders : List Order
  nextOrderId : Int
deriving Repr, DecidableEq

/-- The `cart_items` mapping inside `POST /api/v1/orders`: price each cart
item from the live catalog (`unitPrice = pizza.price`,
`totalPrice = quantity * pizza.price`).  A `pizzaId` that does not resolve
makes the handler emit the 404 response for it; `error` carries the first
such id. -/
def priceCartItems (catalog : Catalog) :
    List CartItem → Except Int (List OrderItem)
  | [] => .ok []
  | it :: rest =>
    match findPizza catalog it.pizzaId with
    | none => .error it.pizzaId
    | some pizza =>
      match priceCartItems catalog rest with
      | .error pid => .error pid
      | .ok lines =>
        .ok (⟨it.pizzaId, it.quantity, pizza.price, it.quantity * pizza.price⟩
              :: lines)

/-- Responses of `POST /api/v1/orders`. -/
inductive OrdersResp where
  /-- 400 "Cart is empty". -/
  | emptyCart
  /-- 404 "Pizza with ID .. not found" for the given id.  The handler sends
  this response from inside the `cart_items` map and then still reaches
  `prisma.order.create`, but the malformed line (all fields `undefined`)
  is rejected by the ORM validation of the required `order_item` columns
  before anything is written, so no order row is created and the
  cart-clearing code after the `await` never runs. -/
  | itemUnavailable (pizzaId : Int)
  /-- 201 with `{orderId, total: Number(order.total), items: [{pizzaId, quantity}]}`. -/
  | created (orderId : Int) (total : Money) (items : List (Int × Int))
deriving Repr, DecidableEq

/-- `app.post("/api/v1/orders")`: empty-cart check, pricing of the cart
items from the live catalog, then `prisma.order.create` with
`total: req.session.cart.total` (the denormalized cart total), cart
cleared and the session written back, 201 response from the created row. -/
def postOrders (catalog : Catalog) (db : Db) (store : SessionStore)
    (s : Session) : OrdersResp × Db × SessionStore :=
  if s.cart.items.isEmpty then (.emptyCart, db, store)
  else
    match priceCartItems catalog s.cart.items with
    | .error pid => (.itemUnavailable pid, db, store)
    | .ok lines =>
      let uid := match s.userId with
        | some u => if u = 0 then none else some u
        | none => none
      let order : Order :=
        ⟨db.nextOrderId, s.id, uid, lines, s.cart.total, .pending⟩
      let s' : Session := { s with cart := emptyCart }
      (.created order.id order.total
         (lines.map (fun l => (l.pizzaId, l.quantity))),
       ⟨db.orders ++ [order], db.nextOrderId + 1⟩,
       kvSet store s.id s')

/-- The spec-side quantity compared against the persisted `total` in the
commit claim: the sum of the line totals of the order items. -/
def orderLinesTotal (items : List OrderItem) : Money :=
  (items.map OrderItem.totalPrice).sum

/-- One element of the `items` array returned by `GET /api/v1/orders/:id`. -/
structure OrderItemView where
  pizzaId : Int
  name : String
  quantity : Int
  unitPrice : Money
  totalPrice : Money
deriving Repr, DecidableEq

/-- The body returned by `GET /api/v1/orders/:id`. -/
structure OrderView where
  orderId : Int
  status : OrderStatus
  total : Money
  items : List OrderItemView
deriving Repr, DecidableEq

/-- Responses of `GET /api/v1/orders/:id`. -/
inductive GetOrderResp where
  /-- 404 "Order not found" (also when owned by another session). -/
  | notFound
  /-- The included `item.pizza` relation was null (pizza row deleted), so
  `item.pizza.name` throws while building the response. -/
  | readFailed
  /-- 200 with the order detail. -/
  | ok (v : OrderView)
deriving Repr, DecidableEq

/-- The `order.items.map` of the order-detail handler: each line reports
`name`, `unitPrice` and `totalPrice` from the included live `pizza`
relation (`item.pizza.price`), not from the stored `order_item` columns. -/
def viewOrderItems (catalog : Catalog) :
    List OrderItem → Option (List OrderItemView)
  | [] => some []
  | it :: rest =>
    match findPizza catalog it.pizzaId with
    | none => none
    | some pizza =>
      match viewOrderItems catalog rest with
      | none => none
      | some vrest =>
        some (⟨it.pizzaId, pizza.name, it.quantity, pizza.price,
               it.quantity * pizza.price⟩ :: vrest)

/-- `app.get("/api/v1/orders/:id")`: look the order up by id and owning
session, then render it with per-item prices taken from the live catalog. -/
def getOrderById (catalog : Catalog) (db : Db) (sessionId : String)
    (oid : Int) : GetOrderResp :=
  match db.orders.find? (fun o => o.id == oid && o.sessionId == sessionId) with
  | none => .notFound
  | some o =>
    match viewOrderItems catalog o.items with
    | none => .readFailed
    | some vitems => .ok ⟨o.id, o.status, o.total, vitems⟩

/-- The query string of `GET /api/v1/pizzas` as far as paging goes.  All
three parameters can appear in a request; the handler reads only
`req.query.limit` and `req.query.page` — `req.query.offset` is never
read. -/
structure PizzasQuery where
  limitParam : Option Int
  pageParam : Option Int
  offsetParam : Option Int
deriving Repr, DecidableEq

/-- JS `parseInt(v) || d` on an absent-or-integer query value: absent
(`NaN`) and `0` both fall back to the default. -/
def parseIntOr (v : Option Int) (d : Int) : Int :=
  match v with
  | none => d
  | some n => if n = 0 then d else n

/-- One element of the `results` array of the pizza listing. -/
structure PizzaSummary where
  id : Int
  name : String
  price : Money
deriving Repr, DecidableEq

/-- The 200 body of `GET /api/v1/pizzas`. -/
structure PizzasPage where
  total : Int
  limit : Int
  offset : Int
  results : List PizzaSummary
deriving Repr, DecidableEq

/-- Responses of `GET /api/v1/pizzas`. -/
inductive PizzasResp where
  /-- 400 "Limit must be between 0 and 100". -/
  | badLimit
  /-- 200 with the page. -/
  | ok (page : PizzasPage)
deriving Repr, DecidableEq

/-- `app.get("/api/v1/pizzas")` in the untagged case: `limit` from the
`limit` parameter, the skip count from the `page` parameter, range check on
`limit`, then `findMany({skip, take})` plus `count()`. -/
def getPizzas (catalog : Catalog) (q : PizzasQuery) : PizzasResp :=
  let limit := parseIntOr q.limitParam 20
  let offset := parseIntOr q.pageParam 0
  if limit < 0 ∨ limit > 100 then .badLimit
  else
    .ok ⟨(catalog.length : Int), limit, offset,
         ((catalog.drop offset.toNat).take limit.toNat).map
           (fun p => ⟨p.id, p.name, p.price⟩)⟩

/-- A row of the `User` table (password hash omitted: not read by the
handlers modelled here). -/
structure User where
  id : Int
  email : String
  verified : Bool
deriving Repr, DecidableEq

/-- A row of the `EmailVerification` table.  `expiresAt` is epoch
milliseconds. -/
structure EmailVerification where
  id : Int
  userId : Int
  email : String
  token : String
  expiresAt : Int
deriving Repr, DecidableEq

/-- Responses of `GET /api/v1/auth/verify`. -/
inductive VerifyResp where
  /-- 400 "Token is required". -/
  | missingToken
  /-- 404 "Invalid or expired token". -/
  | invalidToken
  /-- 400 "User already verified". -/
  | alreadyVerified
  /-- 200 "Email verified successfully.". -/
  | verified
deriving Repr, DecidableEq

/-- `app.get("/api/v1/auth/verify")`: find the verification row by token,
then its user; reject if either is missing or the user is already
verified; otherwise flip `verified` and delete the row.  Faithful to the
source, `expiresAt` is never consulted, which is why no clock argument
appears. -/
def verifyEmailToken (users : List User) (verifs : List EmailVerification)
    (token : String) : VerifyResp × List User × List EmailVerification :=
  if token = "" then (.missingToken, users, verifs)
  else
    match verifs.find? (fun v => v.token == token) with
    | none => (.invalidToken, users, verifs)
    | some vreq =>
      match users.find? (fun u => u.id == vreq.userId) with
      | none => (.invalidToken, users, verifs)
      | some u =>
        if u.verified then (.alreadyVerified, users, verifs)
        else
          (.verified,
           users.map (fun w => if w.id == u.id then { w with verified := true } else w),
           verifs.filter (fun v => v.id != vreq.id))

/-- The set of live `email_rate_limit:` marker keys, keyed by email. -/
abbrev RateLimitMarkers := List String

/-- `isEmailRateLimited(email)`: a live marker means limited; otherwise the
marker is (re)written with a fresh 60-second TTL and the call reports not
limited. -/
def isEmailRateLimited (markers : RateLimitMarkers) (email : String) :
    Bool × RateLimitMarkers :=
  if markers.contains email then (true, markers)
  else (false, email :: markers)

/-- Responses of `POST /api/v1/auth/resend-verification`. -/
inductive ResendResp where
  /-- 400 "Email is required". -/
  | missingEmail
  /-- 404 "User not found or already verified". -/
  | notFoundOrVerified
  /-- 429 rate limited. -/
  | rateLimited
  /-- 200 "Verification email sent."; the argument is the token embedded in
  the mailed link. -/
  | sent (emailedToken : String)
deriving Repr, DecidableEq

/-- `app.post("/api/v1/auth/resend-verification")`: requires an existing
unverified user and no live rate-limit marker; then generates a token,
mails the link, and responds.  The returned row list is the
`EmailVerification` table after the call. -/
def resendVerification (users : List User) (verifs : List EmailVerification)
    (markers : RateLimitMarkers) (email : String) (freshToken : String) :
    ResendResp × List EmailVerification × RateLimitMarkers :=
  if email = "" then (.missingEmail, verifs, markers)
  else
    match users.find? (fun u => u.email == email) with
    | none => (.notFoundOrVerified, verifs, markers)
    | some u =>
      if u.verified then (.notFoundOrVerified, verifs, markers)
      else
        let r := isEmailRateLimited markers email
        if r.1 then (.rateLimited, verifs, r.2)
        else (.sent freshToken, verifs, r.2)

/-- Cart states reachable through the cart endpoints from the empty cart of
a fresh session; the catalog may differ between steps. -/
inductive ReachableCart : Cart → Prop where
  | empty : ReachableCart emptyCart
  | post (catalog : Catalog) (pid q : Int) (c c' : Cart) :
      ReachableCart c → postCart catalog c pid q = .ok c' → ReachableCart c'
  | del (catalog : Catalog) (pid : Int) (c c' : Cart) :
      ReachableCart c → deleteCartItem catalog c pid = .ok c' → ReachableCart c'
  | clear (c : Cart) : ReachableCart c → ReachableCart (clearCart c)

/-- Concrete catalog: pizza 1 priced 10.00 (1000 cents). -/
def cat10 : Catalog := [⟨1, "Margherita", 1000⟩]

/-- The same pizza after a price change to 15.00 (1500 cents). -/
def cat15 : Catalog := [⟨1, "Margherita", 1500⟩]

/-- Concrete catalog of ten pizzas with ids 1..10. -/
def tenPizzas : Catalog :=
  (List.range 10).map (fun i => ⟨Int.ofNat (i + 1), "P", 1000⟩)

/-- A session whose cart was filled while pizza 1 cost 10.00: one line
`{pizzaId 1, quantity 2}` and the running total 20.00 (2000 cents). -/
def driftedSession : Session := ⟨"sid", ⟨[⟨1, 2⟩], 2000⟩, none⟩

/-- A relational store holding one committed order: two units of pizza 1 at
a stored `unitPrice` of 10.00 and a stored `totalPrice` of 20.00. -/
def storedOrderDb : Db :=
  ⟨[⟨1, "sid", none, [⟨1, 2, 1000, 2000⟩], 2000, .pending⟩], 2⟩

/-! Helper lemmas about the cart primitives. -/

-- A successful splice names an entry with the searched id and keeps every
-- other occurrence of the list in the remainder.
theorem removeFirstItem_spec (pid' : Int) :
    ∀ (items : List CartItem) (entry : CartItem) (rest : List CartItem),
      removeFirstItem pid' items = some (entry, rest) →
      entry.pizzaId = pid' ∧ ∀ it ∈ items, it = entry ∨ it ∈ rest := by
  intro items
  induction items with
  | nil => intro entry rest h; simp [removeFirstItem] at h
  | cons hd tl ih =>
    intro entry rest h
    simp only [removeFirstItem] at h
    by_cases hh : hd.pizzaId = pid'
    · rw [if_pos (by simp [hh])] at h
      injection h with h'
      injection h' with h1 h2
      subst h1
      subst h2
      refine ⟨hh, fun it hit => ?_⟩
      cases hit with
      | head => exact Or.inl rfl
      | tail _ hm => exact Or.inr hm
    · rw [if_neg (by simp [hh])] at h
      cases hrec : removeFirstItem pid' tl with
      | none => rw [hrec] at h; cases h
      | some er =>
        obtain ⟨e1, e2⟩ := er
        rw [hrec] at h
        injection h with h'
        injection h' with h1 h2
        subst h1
        subst h2
        obtain ⟨hpe, hall⟩ := ih e1 e2 hrec
        refine ⟨hpe, fun it hit => ?_⟩
        cases hit with
        | head => exact Or.inr (List.mem_cons_self _ _)
        | tail _ hm =>
          cases hall it hm with
          | inl h1 => exact Or.inl h1
          | inr h2 => exact Or.inr (List.mem_cons_of_mem _ h2)

-- An entry with the searched id makes the splice succeed.
theorem removeFirstItem_eq_some_of_mem (pid : Int) :
    ∀ (items : List CartItem) (it : CartItem), it ∈ items → it.pizzaId = pid →
      ∃ e, removeFirstItem pid items = some e := by
  intro items
  induction items with
  | nil => intro it hmem _; cases hmem
  | cons hd tl ih =>
    intro it hmem hpid
    by_cases hh : hd.pizzaId = pid
    · exact ⟨(hd, tl), by simp [removeFirstItem, hh]⟩
    · cases hmem with
      | head => exact absurd hpid hh
      | tail _ hm =>
        obtain ⟨e, he⟩ := ih it hm hpid
        exact ⟨(e.1, hd :: e.2), by simp [removeFirstItem, hh, he]⟩

-- The additive update never changes any pizzaId of the list.
theorem addQtyToFirst_preserves_pid (pid' q pid : Int) :
    ∀ items : List CartItem, (∃ it ∈ items, it.pizzaId = pid) →
      ∃ it ∈ addQtyToFirst items pid' q, it.pizzaId = pid := by
  intro items
  induction items with
  | nil => intro h; obtain ⟨it, hm, _⟩ := h; cases hm
  | cons hd tl ih =>
    intro h
    obtain ⟨it, hm, hpid⟩ := h
    by_cases hh : hd.pizzaId = pid'
    · simp only [addQtyToFirst, if_pos (by simp [hh] : (hd.pizzaId == pid') = true)]
      cases hm with
      | head =>
        exact ⟨{ hd with quantity := hd.quantity + q },
               List.mem_cons_self _ _, hpid⟩
      | tail _ hm' => exact ⟨it, List.mem_cons_of_mem _ hm', hpid⟩
    · simp only [addQtyToFirst, if_neg (by simp [hh] : ¬ (hd.pizzaId == pid') = true)]
      cases hm with
      | head => exact ⟨hd, List.mem_cons_self _ _, hpid⟩
      | tail _ hm' =>
        obtain ⟨jt, hj, hjp⟩ := ih ⟨it, hm', hpid⟩
        exact ⟨jt, List.mem_cons_of_mem _ hj, hjp⟩

-- A successful add-to-cart keeps an entry for every pizzaId already in the
-- cart (it only ever bumps a quantity or appends a fresh entry).
theorem postCart_preserves_entry (catalog : Catalog) (c : Cart)
    (pid' q pid : Int) (c' : Cart)
    (hok : postCart catalog c pid' q = .ok c')
    (hmem : ∃ it ∈ c.items, it.pizzaId = pid) :
    ∃ it ∈ c'.items, it.pizzaId = pid := by
  unfold postCart at hok
  split at hok
  · cases hok
  · split at hok
    · cases hok
    · split at hok
      · injection hok with h
        subst h
        exact addQtyToFirst_preserves_pid pid' q pid c.items hmem
      · injection hok with h
        subst h
        obtain ⟨it, hm, hp⟩ := hmem
        exact ⟨it, List.mem_append_left _ hm, hp⟩

-- Pricing the cart fails, naming an unavailable id, as soon as any cart
-- item does not resolve in the catalog.
theorem priceCartItems_error_of_missing (catalog : Catalog) :
    ∀ (items : List CartItem) (it : CartItem), it ∈ items →
      findPizza catalog it.pizzaId = none →
      ∃ pid, priceCartItems catalog items = .error pid ∧
        findPizza catalog pid = none := by
  intro items
  induction items with
  | nil => intro it hmem _; cases hmem
  | cons hd tl ih =>
    intro it hmem hmiss
    cases hfp : findPizza catalog hd.pizzaId with
    | none => exact ⟨hd.pizzaId, by simp [priceCartItems, hfp], hfp⟩
    | some pizza =>
      cases hmem with
      | head => simp [hmiss] at hfp
      | tail _ hm =>
        obtain ⟨pid, herr, hpm⟩ := ih it hm hmiss
        exact ⟨pid, by simp [priceCartItems, hfp, herr], hpm⟩

/-! Claim C1: order commit totals. -/

/-- C1 counterexample. The claim says the persisted order total equals the
sum of the recomputed line totals and is independent of the denormalized
cart total.  On a cart filled while pizza 1 cost 10.00 (running total
20.00) and committed after the catalog price rose to 15.00, the handler
prices the lines at 15.00 each (line totals summing to 30.00) yet persists
and returns `req.session.cart.total`, i.e. 20.00 — the cart-cached value,
not the sum of line totals. -/
theorem C1_counterexample :
    postOrders cat15 ⟨[], 1⟩ [] driftedSession =
      (.created 1 2000 [(1, 2)],
       ⟨[⟨1, "sid", none, [⟨1, 2, 1500, 3000⟩], 2000, .pending⟩], 2⟩,
       [("sid", ⟨"sid", ⟨[], 0⟩, none⟩)]) ∧
    orderLinesTotal [⟨1, 2, 1500, 3000⟩] = 3000 ∧
    (2000 : Money) ≠ 3000 := by decide

/-- C1 amended. For every successful commit, the persisted order and the
201 response carry the cart-cached running total `session.cart.total`
(equal to the sum of line totals only when no price drifted); the line
items themselves are priced from the catalog at commit time. -/
theorem C1_total_is_cart_total (catalog : Catalog) (db : Db)
    (store : SessionStore) (s : Session) (lines : List OrderItem)
    (hne : s.cart.items ≠ [])
    (hp : priceCartItems catalog s.cart.items = .ok lines) :
    ∃ uid,
      postOrders catalog db store s =
        (.created db.nextOrderId s.cart.total
           (lines.map (fun l => (l.pizzaId, l.quantity))),
         ⟨db.orders ++ [⟨db.nextOrderId, s.id, uid, lines, s.cart.total, .pending⟩],
          db.nextOrderId + 1⟩,
         kvSet store s.id { s with cart := emptyCart }) := by
  have hni : s.cart.items.isEmpty = false := by
    cases hcc : s.cart.items with
    | nil => exact absurd hcc hne
    | cons a l => rfl
  refine ⟨(match s.userId with
           | some u => if u = 0 then none else some u
           | none => none), ?_⟩
  simp [postOrders, hni, hp]

/-- C1 witness: the amended theorem applied to a concrete drift-free
commit. -/
theorem C1_total_is_cart_total_witness :
    driftedSession.cart.items ≠ [] ∧
    priceCartItems cat10 driftedSession.cart.items =
      .ok [⟨1, 2, 1000, 2000⟩] ∧
    ∃ uid : Option Int,
      postOrders cat10 ⟨[], 1⟩ [] driftedSession =
        (.created 1 2000 (([⟨1, 2, 1000, 2000⟩] : List OrderItem).map
           (fun l => (l.pizzaId, l.quantity))),
         ⟨[] ++ [Order.mk 1 "sid" uid [⟨1, 2, 1000, 2000⟩] 2000 .pending], 2⟩,
         kvSet [] "sid" { driftedSession with cart := emptyCart }) :=
  ⟨by decide, by rfl,
   C1_total_is_cart_total cat10 ⟨[], 1⟩ [] driftedSession
     [⟨1, 2, 1000, 2000⟩] (by decide) (by rfl)⟩

/-! Claim C2: unresolvable cart item aborts the whole commit. -/

/-- C2. Whenever the session cart holds an item whose pizzaId does not
resolve in the catalog, the commit reports 404 for an unavailable id and
both stores come back unchanged: no order row is created and the session
record (hence the cart) is untouched. -/
theorem C2_item_unavailable_aborts (catalog : Catalog) (db : Db)
    (store : SessionStore) (s : Session) (it : CartItem)
    (hmem : it ∈ s.cart.items) (hmiss : findPizza catalog it.pizzaId = none) :
    ∃ pid, findPizza catalog pid = none ∧
      postOrders catalog db store s = (.itemUnavailable pid, db, store) := by
  obtain ⟨pid, herr, hpm⟩ :=
    priceCartItems_error_of_missing catalog s.cart.items it hmem hmiss
  have hni : s.cart.items.isEmpty = false := by
    cases hcc : s.cart.items with
    | nil => rw [hcc] at hmem; cases hmem
    | cons a l => rfl
  exact ⟨pid, hpm, by simp [postOrders, hni, herr]⟩

/-- C2 witness: committing a cart holding pizza 1 against an empty catalog
aborts with the 404 outcome and leaves both stores unchanged. -/
theorem C2_item_unavailable_aborts_witness :
    (⟨1, 2⟩ : CartItem) ∈ driftedSession.cart.items ∧
    findPizza [] (⟨1, 2⟩ : CartItem).pizzaId = none ∧
    ∃ pid, findPizza [] pid = none ∧
      postOrders [] ⟨[], 1⟩ [] driftedSession =
        (.itemUnavailable pid, ⟨[], 1⟩, []) :=
  ⟨by decide, by decide,
   C2_item_unavailable_aborts [] ⟨[], 1⟩ [] driftedSession ⟨1, 2⟩
     (by decide) (by decide)⟩

/-! Claim C3: order detail reads and catalog price changes. -/

/-- C3. The claim says repeated reads of a committed order return
identical unitPrice, totalPrice and total regardless of catalog price
changes.  The stored order has `unitPrice` 10.00 and `totalPrice` 20.00 in
its `order_item` row, yet the handler renders `item.pizza.price`: reading
the same order before and after the catalog price change 10.00 to 15.00
yields different `unitPrice`/`totalPrice` (the stored columns are ignored),
so only `total` is stable. -/
theorem C3_read_tracks_live_catalog :
    getOrderById cat10 storedOrderDb "sid" 1 =
      .ok ⟨1, .pending, 2000, [⟨1, "Margherita", 2, 1000, 2000⟩]⟩ ∧
    getOrderById cat15 storedOrderDb "sid" 1 =
      .ok ⟨1, .pending, 2000, [⟨1, "Margherita", 2, 1500, 3000⟩]⟩ ∧
    getOrderById cat10 storedOrderDb "sid" 1 ≠
      getOrderById cat15 storedOrderDb "sid" 1 := by decide

/-! Claim C4: expired verification tokens. -/

/-- C4. The claim says a token whose record has `expiresAt` earlier than
the current time is rejected with 404 and the account stays unverified.
The handler never consults `expiresAt`: with a record expired since epoch
time 0 (long before the concrete reference instant in the second
conjunct), verification still succeeds, flips the account to verified and
deletes the record. -/
theorem C4_expired_token_accepted :
    verifyEmailToken [⟨7, "a@b.com", false⟩] [⟨1, 7, "a@b.com", "tok", 0⟩]
        "tok" =
      (.verified, [⟨7, "a@b.com", true⟩], []) ∧
    (⟨1, 7, "a@b.com", "tok", 0⟩ : EmailVerification).expiresAt
      < 1700000000000 := by decide

/-! Claim C5: session resolution for dead cookies. -/

/-- C5 counterexample. The claim says a presented-but-dead cookie value
leads to a new unguessable id distinct from the presented value plus a
set-cookie.  Presenting the dead value "dead" against an empty store
yields a session whose id IS the presented value, no set-cookie, and the
fresh record persisted under the presented id. -/
theorem C5_counterexample :
    (getSessionForRequest [] (some "dead") "fresh-unguessable").1.id =
      "dead" ∧
    (getSessionForRequest [] (some "dead") "fresh-unguessable").2.1 =
      false ∧
    getSessionForRequest [] (some "dead") "fresh-unguessable" =
      (⟨"dead", ⟨[], 0⟩, none⟩, false,
       [("dead", ⟨"dead", ⟨[], 0⟩, none⟩)]) := by decide

/-- C5 amended. Only an absent or empty cookie triggers a generated id and
a set-cookie; a presented non-empty value with no live record gets a fresh
session (empty cart, no user) created and persisted under the presented
value itself, with no set-cookie issued. -/
theorem C5_dead_cookie_reused (store : SessionStore) (c freshId : String)
    (hc : c ≠ "") (hdead : kvGet store c = none)
    (hfe : freshId ≠ "") (hfresh : kvGet store freshId = none) :
    getSessionForRequest store (some c) freshId =
      (constructSessionData c, false, kvSet store c (constructSessionData c)) ∧
    getSessionForRequest store none freshId =
      (constructSessionData freshId, true,
       kvSet store freshId (constructSessionData freshId)) := by
  constructor
  · simp [getSessionForRequest, getOrCreateSession, createSession, hc, hdead]
  · simp [getSessionForRequest, getOrCreateSession, createSession, hfe, hfresh]

/-- C5 witness: the amended theorem at the concrete dead cookie "dead" and
generated id "fresh". -/
theorem C5_dead_cookie_reused_witness :
    ("dead" : String) ≠ "" ∧ kvGet [] "dead" = none ∧
    ("fresh" : String) ≠ "" ∧ kvGet [] "fresh" = none ∧
    (getSessionForRequest [] (some "dead") "fresh" =
       (constructSessionData "dead", false,
        kvSet [] "dead" (constructSessionData "dead")) ∧
     getSessionForRequest [] none "fresh" =
       (constructSessionData "fresh", true,
        kvSet [] "fresh" (constructSessionData "fresh"))) :=
  ⟨by decide, by decide, by decide, by decide,
   C5_dead_cookie_reused [] "dead" "fresh" (by decide) (by decide)
     (by decide) (by decide)⟩

/-! Claim C6: cart quantity/total invariant. -/

/-- C6 counterexample. The claim says every reachable cart satisfies
quantity at least 1 for every item and a nonnegative total, with zero or
negative quantity inputs removing the item.  One POST of quantity -1 for a
10.00 pizza from the empty cart is accepted and stores the item, reaching
a cart with an item of quantity -1 and total -10.00. -/
theorem C6_counterexample :
    ReachableCart ⟨[⟨1, -1⟩], -1000⟩ ∧
    ¬ ((∀ it ∈ (Cart.mk [⟨1, -1⟩] (-1000)).items, 1 ≤ it.quantity) ∧
       0 ≤ (Cart.mk [⟨1, -1⟩] (-1000)).total) :=
  ⟨ReachableCart.post cat10 1 (-1) emptyCart _ ReachableCart.empty
     (by decide),
   by decide⟩

/-- C6 amended. A zero quantity is rejected with 400 (nothing is removed
or stored), but negative quantities are accepted and stored additively, so
carts with items of quantity below 1 and a negative total are reachable. -/
theorem C6_zero_rejected_negative_stored :
    (∀ (catalog : Catalog) (c : Cart) (pid : Int),
        postCart catalog c pid 0 = .badRequest) ∧
    ReachableCart ⟨[⟨1, -1⟩], -1000⟩ ∧
    (∀ it ∈ (Cart.mk [⟨1, -1⟩] (-1000)).items, it.quantity < 1) ∧
    (Cart.mk [⟨1, -1⟩] (-1000)).total < 0 := by
  refine ⟨fun catalog c pid => ?_,
          ReachableCart.post cat10 1 (-1) emptyCart _ ReachableCart.empty
            (by decide),
          by decide, by decide⟩
  simp [postCart]

/-! Claim C7: cart lifecycle scenario. -/

/-- C7 counterexample. The claim says that from a cart holding quantity 2
of pizza 1 (priced 10.00, total 20.00), posting quantity 3 yields quantity
4 and total 40.00.  The handler is additive on both fields: it yields
quantity 5 and total 50.00. -/
theorem C7_counterexample :
    postCart cat10 ⟨[⟨1, 2⟩], 2000⟩ 1 3 = .ok ⟨[⟨1, 5⟩], 5000⟩ ∧
    postCart cat10 ⟨[⟨1, 2⟩], 2000⟩ 1 3 ≠ .ok ⟨[⟨1, 4⟩], 4000⟩ := by decide

/-- C7 amended. The lifecycle with the additive numbers the code produces:
posting quantity 2 of the 10.00 pizza to the empty cart gives quantity 2
and total 20.00; posting quantity 3 more gives quantity 5 and total 50.00;
deleting the item then empties the cart and zeroes the total. -/
theorem C7_lifecycle :
    postCart cat10 emptyCart 1 2 = .ok ⟨[⟨1, 2⟩], 2000⟩ ∧
    postCart cat10 ⟨[⟨1, 2⟩], 2000⟩ 1 3 = .ok ⟨[⟨1, 5⟩], 5000⟩ ∧
    deleteCartItem cat10 ⟨[⟨1, 5⟩], 5000⟩ 1 = .ok ⟨[], 0⟩ := by decide

/-! Claim C8: paging of the pizza listing. -/

/-- C8 counterexample. The claim says `limit=1&offset=2` over ten pizzas
returns offset 2 and the third pizza.  The handler reads the skip count
from the `page` query parameter, so the `offset` parameter is ignored: the
response reports offset 0 and holds the first pizza. -/
theorem C8_counterexample :
    getPizzas tenPizzas ⟨some 1, none, some 2⟩ =
      .ok ⟨10, 1, 0, [⟨1, "P", 1000⟩]⟩ ∧
    getPizzas tenPizzas ⟨some 1, none, some 2⟩ ≠
      .ok ⟨10, 1, 2, [⟨3, "P", 1000⟩]⟩ := by decide

/-- C8 amended. The skip count is controlled by the `page` query
parameter: `limit=1&page=2` over ten pizzas returns limit 1, offset 2,
exactly the third pizza, and total 10; the `offset` query parameter has no
effect on the response whatsoever. -/
theorem C8_page_controls_skip :
    getPizzas tenPizzas ⟨some 1, some 2, none⟩ =
      .ok ⟨10, 1, 2, [⟨3, "P", 1000⟩]⟩ ∧
    ∀ (catalog : Catalog) (l p o o' : Option Int),
      getPizzas catalog ⟨l, p, o⟩ = getPizzas catalog ⟨l, p, o'⟩ :=
  ⟨by decide, fun _ _ _ _ _ => rfl⟩

/-! Claim C9: resend-verification persistence. -/

/-- C9. The claim says a successful resend persists a new
EmailVerification record holding the freshly generated token.  The handler
only generates the token and mails the link: the verification table comes
back unchanged on the concrete run (and, by the last conjunct, on every
run), so the mailed token can never be redeemed — the follow-up verify
with it returns 404 — while the rate-limit marker is indeed reset. -/
theorem C9_resend_persists_no_record :
    resendVerification [⟨7, "a@b.com", false⟩] [] [] "a@b.com" "tok2" =
      (.sent "tok2", [], ["a@b.com"]) ∧
    verifyEmailToken [⟨7, "a@b.com", false⟩] [] "tok2" =
      (.invalidToken, [⟨7, "a@b.com", false⟩], []) ∧
    ∀ (users : List User) (verifs : List EmailVerification)
      (markers : RateLimitMarkers) (email tok : String),
      (resendVerification users verifs markers email tok).2.1 = verifs := by
  refine ⟨by decide, by decide, fun users verifs markers email tok => ?_⟩
  by_cases h1 : email = ""
  · simp [resendVerification, h1]
  · cases h2 : users.find? (fun u => u.email == email) with
    | none => simp [resendVerification, h1, h2]
    | some u =>
      by_cases h3 : u.verified
      · simp [resendVerification, h1, h2, h3]
      · by_cases h4 : email ∈ markers
        · simp [resendVerification, isEmailRateLimited, h1, h2, h3, h4]
        · simp [resendVerification, isEmailRateLimited, h1, h2, h3, h4]

/-! Claim C10: cart items whose pizza left the catalog. -/

/-- C10. A cart entry whose pizzaId no longer resolves in the catalog:
the per-item delete responds 404 "Pizza not found" and leaves the session
store untouched; every successful add-to-cart keeps an entry with that
pizzaId; every successful per-item delete performed while the id stays
unresolvable keeps an entry with that pizzaId; only the unconditional
clear removes it (yielding the empty cart with zero total). -/
theorem C10_unavailable_item_stuck (catalog : Catalog)
    (store : SessionStore) (s : Session) (pid : Int) (it : CartItem)
    (hmem : it ∈ s.cart.items) (hpid : it.pizzaId = pid)
    (hmiss : findPizza catalog pid = none) :
    deleteCartRoute catalog store s pid = (.pizzaNotFound, store) ∧
    (∀ (cat' : Catalog) (pid' q : Int) (c' : Cart),
        postCart cat' s.cart pid' q = .ok c' →
        ∃ jt ∈ c'.items, jt.pizzaId = pid) ∧
    (∀ (cat' : Catalog) (pid' : Int) (c' : Cart),
        findPizza cat' pid = none → deleteCartItem cat' s.cart pid' = .ok c' →
        ∃ jt ∈ c'.items, jt.pizzaId = pid) ∧
    (clearCart s.cart).items = [] ∧ (clearCart s.cart).total = 0 := by
  obtain ⟨e, he⟩ := removeFirstItem_eq_some_of_mem pid s.cart.items it hmem hpid
  obtain ⟨e1, e2⟩ := e
  refine ⟨?_, ?_, ?_, rfl, rfl⟩
  · simp [deleteCartRoute, deleteCartItem, he, hmiss]
  · intro cat' pid' q c' hok
    exact postCart_preserves_entry cat' s.cart pid' q pid c' hok ⟨it, hmem, hpid⟩
  · intro cat' pid' c' hmiss' hok
    unfold deleteCartItem at hok
    cases hrem : removeFirstItem pid' s.cart.items with
    | none => rw [hrem] at hok; cases hok
    | some er =>
      obtain ⟨f1, f2⟩ := er
      rw [hrem] at hok
      cases hfp : findPizza cat' pid' with
      | none => rw [hfp] at hok; cases hok
      | some pizza =>
        rw [hfp] at hok
        injection hok with h
        subst h
        obtain ⟨hfpid, hall⟩ := removeFirstItem_spec pid' s.cart.items f1 f2 hrem
        cases hall it hmem with
        | inl hEq =>
          exfalso
          have : pid = pid' := by rw [← hpid, hEq, hfpid]
          rw [this, hfp] at hmiss'
          cases hmiss'
        | inr hIn => exact ⟨it, hIn, hpid⟩

/-- C10 witness: a session holding two units of pizza 1 while the catalog
is empty; the per-item delete 404s and leaves the store unchanged. -/
theorem C10_unavailable_item_stuck_witness :
    (⟨1, 2⟩ : CartItem) ∈ (Session.mk "s" ⟨[⟨1, 2⟩], 2000⟩ none).cart.items ∧
    (⟨1, 2⟩ : CartItem).pizzaId = 1 ∧
    findPizza [] 1 = none ∧
    deleteCartRoute [] [("s", ⟨"s", ⟨[⟨1, 2⟩], 2000⟩, none⟩)]
        ⟨"s", ⟨[⟨1, 2⟩], 2000⟩, none⟩ 1 =
      (.pizzaNotFound, [("s", ⟨"s", ⟨[⟨1, 2⟩], 2000⟩, none⟩)]) :=
  ⟨by decide, by decide, by decide,
   (C10_unavailable_item_stuck [] [("s", ⟨"s", ⟨[⟨1, 2⟩], 2000⟩, none⟩)]
      ⟨"s", ⟨[⟨1, 2⟩], 2000⟩, none⟩ 1 ⟨1, 2⟩ (by decide) (by decide)
      (by decide)).1⟩

end PizzaGo
